import Mathlib

/-!
Shallow embedding of the homepage components of the foc-docs repository
(`src/components/HomepageFeatures/index.tsx` and the homepage page
component that defines `HomepageHeader`).  The JSX output of each React
component is modelled as explicit Lean data: a `Card` structure for the
output of the `Feature` renderer, a `FeaturesSection` for
`HomepageFeatures`, and a `HeaderOut` for `HomepageHeader`.  Optional
props (`Svg?`, `ImageSrc?`) are modelled with `Option`; JavaScript
truthiness of an optional string (the condition of the icon ternary) is
modelled by `truthyStr`.
-/

/-- A reference to a React SVG component
(`React.ComponentType<React.ComponentProps<'svg'>>`).  The renderer never
invokes it; it only places the reference, with props, into the output
tree, so we model it as an identifier. -/
structure SvgComponent where
  ref : String
deriving DecidableEq

/-- One inline piece of a `description` React fragment: plain text or an
inline `<code>` span (the only node kinds occurring in `FeatureList`). -/
inductive DescPiece where
  | text (s : String)
  | code (s : String)
deriving DecidableEq

/-- The `FeatureItem` record type of the source: `title`, optional `Svg`
component, optional raster `ImageSrc`, and a rich-text `description`. -/
structure FeatureItem where
  title : String
  Svg : Option SvgComponent := Option.none
  ImageSrc : Option String := Option.none
  description : List DescPiece
deriving DecidableEq

/-- JavaScript truthiness of an optional string prop: `undefined` and the
empty string are both falsy, any other string is truthy. -/
def truthyStr : Option String → Bool
  | Option.none => false
  | Option.some s => !(s == "")

/-- The compiled-in `FeatureList` constant of the source file. -/
def FeatureList : List FeatureItem := [
  { title := "Easy to Deploy",
    ImageSrc := Option.some "/img/magician.png",
    description := [DescPiece.text "foc.fun was designed to make Starknet development magical. Deploy your decentralized applications with simple commands and get running quickly."] },
  { title := "Focus on Your App",
    ImageSrc := Option.some "/img/rainbow.png",
    description := [DescPiece.text "foc.fun handles the infrastructure complexity so you can focus on building amazing user experiences. Use our modular ",
                    DescPiece.code "Registry", DescPiece.text ", ",
                    DescPiece.code "Accounts", DescPiece.text ", ",
                    DescPiece.code "Paymaster", DescPiece.text ", and ",
                    DescPiece.code "Events", DescPiece.text " modules."] },
  { title := "Powered by Starknet",
    ImageSrc := Option.some "/img/starknet-logo.png",
    description := [DescPiece.text "Built specifically for Starknet's Cairo smart contracts and account abstraction. Leverage zero-knowledge proofs, gasless transactions, and next-gen blockchain features."] }
]

/-- The hashed CSS-module class `styles.featureSvg`, modelled as an
uninterpreted token. -/
def featureSvgClass : String := "featureSvg"

/-- The hashed CSS-module class `styles.features`. -/
def featuresClass : String := "features"

/-- The attributes of a rendered `<img>` element inside a feature card. -/
structure ImgElement where
  src : String
  alt : String
  className : String
  role : String
deriving DecidableEq

/-- The icon slot of a rendered card: an `<img>` element, a placed SVG
component with its props, or nothing (the `null` branch of the ternary). -/
inductive IconSlot where
  | img (e : ImgElement)
  | svg (c : SvgComponent) (className : String) (role : String)
  | none
deriving DecidableEq

/-- Number of icon elements a card icon slot contributes. -/
def iconCount : IconSlot → Nat
  | IconSlot.none => 0
  | _ => 1

/-- The element kind in an icon slot, as a tag string. -/
def iconKind : IconSlot → String
  | IconSlot.img _ => "img"
  | IconSlot.svg _ _ _ => "svg"
  | IconSlot.none => "none"

/-- A rendered feature card: outer `div` class, icon slot, `h3` title and
description (the output of `Feature`). -/
structure Card where
  className : String
  icon : IconSlot
  title : String
  description : List DescPiece
deriving DecidableEq

/-- The `Feature` renderer.  The icon is the source ternary
`ImageSrc ? <img src={ImageSrc} alt={title} .../> : Svg ? <Svg .../> : null`;
when `truthyStr item.ImageSrc` holds, `item.ImageSrc = some src` with
`src ≠ ""` and `item.ImageSrc.getD ""` is that `src`. -/
def Feature (item : FeatureItem) : Card :=
  { className := "col col--4",
    icon :=
      if truthyStr item.ImageSrc then
        IconSlot.img { src := item.ImageSrc.getD "", alt := item.title,
                       className := featureSvgClass, role := "img" }
      else
        match item.Svg with
        | Option.some c => IconSlot.svg c featureSvgClass "img"
        | Option.none => IconSlot.none,
    title := item.title,
    description := item.description }

/-- A rendered child together with its React `key` attribute. -/
structure Keyed (α : Type) where
  key : Nat
  node : α
deriving DecidableEq

/-- The row body of `HomepageFeatures`:
`list.map((props, idx) => <Feature key={idx} {...props} />)`. -/
def featureRow (l : List FeatureItem) : List (Keyed Card) :=
  l.enum.map (fun p => { key := p.1, node := Feature p.2 })

/-- The rendered features section: section class and the keyed cards of
the single row. -/
structure FeaturesSection where
  className : String
  rowCards : List (Keyed Card)
deriving DecidableEq

/-- The `HomepageFeatures` component: a section over the compiled-in
`FeatureList`. -/
def HomepageFeatures : FeaturesSection :=
  { className := featuresClass, rowCards := featureRow FeatureList }

/-- Infima grid semantics (the CSS framework used by the site): inside a
`row`, a `div` of class `col col--k` spans `k` of the row's 12 grid
columns.  Modelled as a table over the grid classes. -/
def colSpan (cls : String) : Option Nat :=
  if cls = "col col--1" then Option.some 1
  else if cls = "col col--2" then Option.some 2
  else if cls = "col col--3" then Option.some 3
  else if cls = "col col--4" then Option.some 4
  else if cls = "col col--5" then Option.some 5
  else if cls = "col col--6" then Option.some 6
  else if cls = "col col--7" then Option.some 7
  else if cls = "col col--8" then Option.some 8
  else if cls = "col col--9" then Option.some 9
  else if cls = "col col--10" then Option.some 10
  else if cls = "col col--11" then Option.some 11
  else if cls = "col col--12" then Option.some 12
  else Option.none

/-- The site configuration object consumed by `HomepageHeader` through
`useDocusaurusContext` (title and tagline fields used). -/
structure SiteConfig where
  title : String
  tagline : String

/-- A rendered `<Link>` call-to-action button. -/
structure LinkElem where
  className : String
  «to» : String
  label : String
deriving DecidableEq

/-- The rendered homepage header: hero classes, logo `<img>` attributes,
the `h1` title text, the subtitle, and the call-to-action links. -/
structure HeaderOut where
  className : String
  logoSrc : String
  logoAlt : String
  titleText : String
  subtitle : String
  links : List LinkElem
deriving DecidableEq

/-- The hashed CSS-module class `styles.heroBanner`. -/
def heroBannerClass : String := "heroBanner"

/-- The `HomepageHeader` component of the homepage page file. -/
def HomepageHeader (siteConfig : SiteConfig) : HeaderOut :=
  { className := "hero hero--primary " ++ heroBannerClass,
    logoSrc := "/img/foc-logo.png",
    logoAlt := "foc.fun logo",
    titleText := siteConfig.title ++ " ✨",
    subtitle := siteConfig.tagline,
    links := [
      { className := "button button--secondary button--lg",
        «to» := "/docs/getting-started/intro",
        label := "Get Started with foc.fun 🪄" },
      { className := "button button--primary button--lg margin-left--md",
        «to» := "/docs/intro",
        label := "View Documentation 📖" } ] }

/-- An item with no icon fields, used as a concrete test input. -/
def plainItem : FeatureItem := { title := "t", description := [] }

/-- An item carrying both a raster path and an SVG component. -/
def bothItem : FeatureItem :=
  { title := "t", Svg := Option.some { ref := "X" },
    ImageSrc := Option.some "/a.png", description := [] }

/-- An item whose `ImageSrc` is the empty string and whose `Svg` is set. -/
def emptySrcSvgItem : FeatureItem :=
  { title := "t", Svg := Option.some { ref := "X" },
    ImageSrc := Option.some "", description := [] }

/-- An item whose `ImageSrc` is the empty string and whose `Svg` is not
set. -/
def emptySrcItem : FeatureItem :=
  { title := "t", ImageSrc := Option.some "", description := [] }

/-- Claim C1: the `Feature` renderer resolves the icon slot by a strict
three-way priority chain: a present raster path (a non-empty `ImageSrc`,
presence being tested by string truthiness in the source) renders an
`<img>` even when `Svg` is also set; otherwise a present `Svg` renders
that component; otherwise nothing is rendered in the icon slot. -/
theorem feature_icon_priority (item : FeatureItem) :
    (∀ src, item.ImageSrc = Option.some src → src ≠ "" →
      (Feature item).icon = IconSlot.img
        { src := src, alt := item.title, className := featureSvgClass, role := "img" })
    ∧ (truthyStr item.ImageSrc = false → ∀ c, item.Svg = Option.some c →
      (Feature item).icon = IconSlot.svg c featureSvgClass "img")
    ∧ (truthyStr item.ImageSrc = false → item.Svg = Option.none →
      (Feature item).icon = IconSlot.none) := by
  refine ⟨?_, ?_, ?_⟩
  · intro src hsrc hne
    simp [Feature, truthyStr, hsrc, hne]
  · intro hf c hc
    simp [Feature, hf, hc]
  · intro hf hs
    simp [Feature, hf, hs]

/-- Witness for C1 at an item carrying both a raster path and an SVG
component: the raster `<img>` wins. -/
theorem feature_icon_priority_witness :
    (Feature bothItem).icon = IconSlot.img
      { src := "/a.png", alt := "t", className := featureSvgClass, role := "img" } :=
  (feature_icon_priority bothItem).1 "/a.png" rfl (by decide)

/-- Counterexample to claim C2 as stated: an item whose `ImageSrc` is the
empty string has an icon field set (`ImageSrc.isSome`), yet the rendered
card has zero icon elements, not exactly one. -/
theorem feature_icon_count_cex :
    (emptySrcItem.ImageSrc.isSome || emptySrcItem.Svg.isSome) = true
    ∧ iconCount (Feature emptySrcItem).icon = 0 := by
  exact ⟨rfl, rfl⟩

/-- Claim C2 (amended): the card has exactly one icon element when a
truthy (non-empty) `ImageSrc` or an `Svg` is set, and zero icon elements
otherwise (`ImageSrc` absent or empty, and `Svg` absent). -/
theorem feature_icon_count (item : FeatureItem) :
    ((truthyStr item.ImageSrc || item.Svg.isSome) = true →
      iconCount (Feature item).icon = 1)
    ∧ ((truthyStr item.ImageSrc || item.Svg.isSome) = false →
      iconCount (Feature item).icon = 0) := by
  cases ht : truthyStr item.ImageSrc with
  | true =>
    refine ⟨fun _ => ?_, fun hf => ?_⟩
    · simp [Feature, ht, iconCount]
    · simp at hf
  | false =>
    cases hs : item.Svg with
    | some c =>
      refine ⟨fun _ => ?_, fun hf => ?_⟩
      · simp [Feature, ht, hs, iconCount]
      · simp at hf
    | none =>
      refine ⟨fun h => ?_, fun _ => ?_⟩
      · simp at h
      · simp [Feature, ht, hs, iconCount]

/-- Witness for the amended C2 at two concrete items: one icon when an
icon source is truthy, zero when none is. -/
theorem feature_icon_count_witness :
    iconCount (Feature bothItem).icon = 1 ∧ iconCount (Feature plainItem).icon = 0 :=
  ⟨(feature_icon_count bothItem).1 (by decide),
   (feature_icon_count plainItem).2 (by decide)⟩

/-- Claim C3: `HomepageFeatures` renders every entry of `FeatureList` in
source order: exactly 3 keyed cards, equal to the per-item renders in
input order, with keys 0, 1, 2 and titles in list order (no duplication,
no omission). -/
theorem homepage_features_order :
    HomepageFeatures.rowCards.length = 3
    ∧ HomepageFeatures.rowCards.map (fun k => k.node) = FeatureList.map Feature
    ∧ HomepageFeatures.rowCards.map (fun k => k.node.title)
        = ["Easy to Deploy", "Focus on Your App", "Powered by Starknet"]
    ∧ HomepageFeatures.rowCards.map (fun k => k.key) = [0, 1, 2] := by
  refine ⟨rfl, rfl, rfl, rfl⟩

/-- Counterexample to claim C4 as stated: for a 1-item feature list the
rendered card still spans 4 of the row's 12 grid columns, not
12 / 1 = 12 — the column width is not sized for the list's cardinality. -/
theorem homepage_features_colwidth_cex :
    ¬ (∀ k ∈ featureRow [plainItem],
        colSpan k.node.className = Option.some (12 / (List.length [plainItem]))) := by
  decide

/-- Claim C4 (amended): every rendered card carries the fixed class
`col col--4`, spanning 4 of the row's 12 grid columns regardless of the
list's cardinality; for the compiled-in 3-entry `FeatureList` this
coincides with one row of 3 equal-width columns (12 / 3 = 4). -/
theorem homepage_features_col_width :
    (∀ item : FeatureItem, colSpan (Feature item).className = Option.some 4)
    ∧ 12 / FeatureList.length = 4
    ∧ HomepageFeatures.rowCards.all
        (fun k => colSpan k.node.className == Option.some 4) = true := by
  refine ⟨fun item => rfl, rfl, rfl⟩

/-- Claim C5: the compiled-in `FeatureList` has exactly 3 entries titled
"Easy to Deploy", "Focus on Your App", "Powered by Starknet" in that
order, with raster paths "/img/magician.png", "/img/rainbow.png",
"/img/starknet-logo.png" and no `Svg`; rendering yields 3 cards titled in
that order, each with an `<img>` icon and no `<svg>` icon. -/
theorem feature_list_content :
    FeatureList.length = 3
    ∧ FeatureList.map (fun i => i.title)
        = ["Easy to Deploy", "Focus on Your App", "Powered by Starknet"]
    ∧ FeatureList.map (fun i => i.ImageSrc)
        = [Option.some "/img/magician.png", Option.some "/img/rainbow.png",
           Option.some "/img/starknet-logo.png"]
    ∧ FeatureList.map (fun i => i.Svg) = [Option.none, Option.none, Option.none]
    ∧ HomepageFeatures.rowCards.map (fun k => iconKind k.node.icon)
        = ["img", "img", "img"]
    ∧ HomepageFeatures.rowCards.map (fun k => k.node.title)
        = ["Easy to Deploy", "Focus on Your App", "Powered by Starknet"] := by
  refine ⟨rfl, rfl, rfl, rfl, rfl, rfl⟩

/-- Claim C6: for an item with neither `ImageSrc` nor `Svg` set, the
renderer still totally produces a card (no failure path exists in the
embedding) whose icon slot is empty and which carries the item's title
and description. -/
theorem feature_no_icon_safe (item : FeatureItem)
    (h1 : item.ImageSrc = Option.none) (h2 : item.Svg = Option.none) :
    (Feature item).icon = IconSlot.none
    ∧ (Feature item).title = item.title
    ∧ (Feature item).description = item.description := by
  refine ⟨?_, rfl, rfl⟩
  simp [Feature, truthyStr, h1, h2]

/-- Witness for C6 at a concrete item with no icon fields. -/
theorem feature_no_icon_safe_witness :
    (Feature plainItem).icon = IconSlot.none
    ∧ (Feature plainItem).title = plainItem.title
    ∧ (Feature plainItem).description = plainItem.description :=
  feature_no_icon_safe plainItem rfl rfl

/-- Claim C7: the `Feature` renderer is deterministic and idempotent —
its output is a function of the item alone, so rendering equal items
(in particular the same item twice) yields structurally identical cards,
with no hidden state between calls. -/
theorem feature_deterministic (item1 item2 : FeatureItem) (h : item1 = item2) :
    Feature item1 = Feature item2 := by rw [h]

/-- Witness for C7: rendering `plainItem` twice gives identical output. -/
theorem feature_deterministic_witness :
    Feature plainItem = Feature plainItem :=
  feature_deterministic plainItem plainItem rfl

/-- Claim C8: `HomepageHeader` renders the configured site title (in the
hero heading) and tagline (as the subtitle), and exactly two
call-to-action links targeting "/docs/getting-started/intro" and
"/docs/intro". -/
theorem homepage_header_content (siteConfig : SiteConfig) :
    (HomepageHeader siteConfig).titleText = siteConfig.title ++ " ✨"
    ∧ (HomepageHeader siteConfig).subtitle = siteConfig.tagline
    ∧ (HomepageHeader siteConfig).links.length = 2
    ∧ (HomepageHeader siteConfig).links.map (fun l => l.«to»)
        = ["/docs/getting-started/intro", "/docs/intro"] := by
  exact ⟨rfl, rfl, rfl, rfl⟩

/-- Claim C9: raster-icon presence is string truthiness, so an item whose
`ImageSrc` is the empty string renders no `<img>` at all: the icon slot
falls through to the `Svg` component when set, and to the empty state
otherwise. -/
theorem feature_empty_src_falls_through (item : FeatureItem)
    (h : item.ImageSrc = Option.some "") :
    (∀ e, (Feature item).icon ≠ IconSlot.img e)
    ∧ (∀ c, item.Svg = Option.some c →
        (Feature item).icon = IconSlot.svg c featureSvgClass "img")
    ∧ (item.Svg = Option.none → (Feature item).icon = IconSlot.none) := by
  have ht : truthyStr item.ImageSrc = false := by rw [h]; rfl
  refine ⟨?_, ?_, ?_⟩
  · intro e
    cases hs : item.Svg with
    | some c => simp [Feature, ht, hs]
    | none => simp [Feature, ht, hs]
  · intro c hc
    simp [Feature, ht, hc]
  · intro hn
    simp [Feature, ht, hn]

/-- Witness for C9 at a concrete item with an empty `ImageSrc` and an
SVG component set: the SVG component is rendered. -/
theorem feature_empty_src_falls_through_witness :
    (Feature emptySrcSvgItem).icon
      = IconSlot.svg { ref := "X" } featureSvgClass "img" :=
  (feature_empty_src_falls_through emptySrcSvgItem rfl).2.1 { ref := "X" } rfl

/-- Claim C10: whenever the renderer produces an `<img>` icon for an
item, that element's `alt` attribute equals the item's title. -/
theorem feature_img_alt_is_title (item : FeatureItem) (e : ImgElement)
    (h : (Feature item).icon = IconSlot.img e) : e.alt = item.title := by
  obtain ⟨esrc, ealt, ecn, erole⟩ := e
  cases ht : truthyStr item.ImageSrc with
  | true =>
    simp [Feature, ht] at h
    exact h.2.1.symm
  | false =>
    cases hs : item.Svg with
    | some c => simp [Feature, ht, hs] at h
    | none => simp [Feature, ht, hs] at h

/-- Witness for C10 at a concrete item rendered with a raster icon. -/
theorem feature_img_alt_is_title_witness :
    ({ src := "/a.png", alt := "t", className := featureSvgClass,
       role := "img" } : ImgElement).alt = bothItem.title :=
  feature_img_alt_is_title bothItem
    { src := "/a.png", alt := "t", className := featureSvgClass, role := "img" } rfl
